import Mathlib

/-!
# DebugMCP — verification of the specification against the source

Shallow embedding of the DebugMCP standalone stack (`src/standalone/index.ts`,
`src/utils/logger.ts`) together with spec-modelled definitions for the core
components (`DAPClient`, `DebugAdapterManager`, `DebugStateTracker`,
`StandaloneDAPBackend`) whose implementation files are not part of the
available source tree.

Pure functions of the TypeScript source become Lean functions; the mutable
fields of a class become an explicit state record threaded through the
methods; the filesystem and child-process effects used by
`InstructionBuilder` become an explicit environment record.
-/

/-! ## JSON values and `JSON.stringify(v, null, 2)`

`InstructionBuilder.buildSetupInstructions` and `Logger.formatError` both
serialise structured data with `JSON.stringify(_, null, 2)`. -/

inductive JsonValue where
  | str (s : String)
  | jbool (b : Bool)
  | num (n : Nat)
  | arr (elems : List JsonValue)
  | obj (fields : List (String × JsonValue))
deriving Repr

/-- Escaping applied by `JSON.stringify` to the characters that can occur in
the repository's string data (quote and backslash). -/
def jsonEscape (s : String) : String :=
  s.data.foldl (fun acc c =>
    if c = '\"' then acc ++ "\\\""
    else if c = '\\' then acc ++ "\\\\"
    else acc.push c) ""

def jsonIndent (n : Nat) : String := String.mk (List.replicate n ' ')

/-- `JSON.stringify(v, null, 2)` at nesting indentation `ind`. -/
def jsonStringifyAux (ind : Nat) : JsonValue → String
  | .str s => "\"" ++ jsonEscape s ++ "\""
  | .jbool b => if b then "true" else "false"
  | .num n => toString n
  | .arr [] => "[]"
  | .arr es =>
    "[\n" ++
      ",\n".intercalate (es.attach.map (fun e =>
        jsonIndent (ind + 2) ++ jsonStringifyAux (ind + 2) e.1)) ++
      "\n" ++ jsonIndent ind ++ "]"
  | .obj [] => "\x7b\x7d"
  | .obj fs =>
    "\x7b\n" ++
      ",\n".intercalate (fs.attach.map (fun f =>
        jsonIndent (ind + 2) ++ "\"" ++ jsonEscape f.1.1 ++ "\": " ++
          jsonStringifyAux (ind + 2) f.1.2)) ++
      "\n" ++ jsonIndent ind ++ "\x7d"
termination_by v => sizeOf v
decreasing_by
  · have := List.sizeOf_lt_of_mem e.2
    simp_wf
    omega
  · have h1 := List.sizeOf_lt_of_mem f.2
    have h2 : sizeOf f.1.2 < sizeOf f.1 := by
      obtain ⟨a, b⟩ := f.1
      simp
    simp_wf
    omega

def jsonStringify (v : JsonValue) : String := jsonStringifyAux 0 v

/-! ## `src/utils/logger.ts` -/

/-- `LogLevel` enum: DEBUG = 0, INFO = 1, WARN = 2, ERROR = 3. -/
inductive LogLevel where
  | debug
  | info
  | warn
  | error
deriving DecidableEq, Repr

/-- The numeric value of the TypeScript enum member. -/
def LogLevel.toNat : LogLevel → Nat
  | .debug => 0
  | .info => 1
  | .warn => 2
  | .error => 3

/-- `LogLevel[level]`: the reverse enum mapping used in the
`setLogLevel` confirmation message. -/
def logLevelName : LogLevel → String
  | .debug => "DEBUG"
  | .info => "INFO"
  | .warn => "WARN"
  | .error => "ERROR"

/-- The `error?: any` argument of the logging methods: either a JavaScript
`Error` (message plus optional stack) or any other JSON-like value. -/
inductive JsErrorValue where
  | jsError (message : String) (stack : Option String)
  | jsonValue (v : JsonValue)

/-- `Logger.formatError`: an `Error` becomes its message followed by the
stack when present; any other value is serialised with
`JSON.stringify(error, null, 2)`. -/
def formatError : JsErrorValue → String
  | .jsError m stack =>
    m ++ (match stack with
      | some s => "\nStack: " ++ s
      | none => "")
  | .jsonValue v => jsonStringify v

/-- The mutable fields of one `Logger` instance: `logLevel`, and the
output channel contents, recorded as the list of (channel method, line)
writes in order. -/
structure LoggerState where
  logLevel : LogLevel
  output : List (LogLevel × String)
deriving DecidableEq, Repr

/-- A freshly constructed `Logger`: `logLevel` initialised to `INFO`, the
output channel empty. -/
def loggerInit : LoggerState := { logLevel := .info, output := [] }

/-- `Logger.shouldLog(level)`: `level >= this.logLevel`. -/
def shouldLog (st : LoggerState) (level : LogLevel) : Bool :=
  st.logLevel.toNat ≤ level.toNat

/-- Shared body of the four logging methods: guarded by `shouldLog`, the
message (with the formatted error appended when one is given) is written
to the output channel at the method's level. -/
def logWrite (level : LogLevel) (message : String) (err : Option JsErrorValue)
    (st : LoggerState) : LoggerState :=
  if shouldLog st level then
    match err with
    | some e =>
      { st with output := st.output ++ [(level, message ++ ": " ++ formatError e)] }
    | none => { st with output := st.output ++ [(level, message)] }
  else st

/-- `Logger.debug(message, error?)`. -/
def Logger.debug (message : String) (err : Option JsErrorValue)
    (st : LoggerState) : LoggerState :=
  logWrite .debug message err st

/-- `Logger.info(message, error?)`. -/
def Logger.info (message : String) (err : Option JsErrorValue)
    (st : LoggerState) : LoggerState :=
  logWrite .info message err st

/-- `Logger.warn(message, error?)`. -/
def Logger.warn (message : String) (err : Option JsErrorValue)
    (st : LoggerState) : LoggerState :=
  logWrite .warn message err st

/-- `Logger.error(message, error?)`. -/
def Logger.error (message : String) (err : Option JsErrorValue)
    (st : LoggerState) : LoggerState :=
  logWrite .error message err st

/-- `Logger.setLogLevel(level)`: assigns `this.logLevel = level` first and
then emits the confirmation through `this.info(...)` (so the confirmation
is subject to the new level). -/
def Logger.setLogLevel (level : LogLevel) (st : LoggerState) : LoggerState :=
  Logger.info ("Log level set to " ++ logLevelName level) none
    { st with logLevel := level }

/-- Dispatch from a level to the logging method of that level, used to
quantify over the four public logging methods. -/
def logMethod : LogLevel → String → Option JsErrorValue → LoggerState → LoggerState
  | .debug => Logger.debug
  | .info => Logger.info
  | .warn => Logger.warn
  | .error => Logger.error

/-! ### The `Logger` singleton machinery

`Logger` has a private static `instance` field, lazily filled by
`getInstance`, and the module exports `const logger = Logger.getInstance()`. -/

/-- The static (module-level) state of `logger.ts`: the `Logger.instance`
static field (the id of the created instance, if any) and a counter of how
many `new Logger()` constructions (output channel creations) happened. -/
structure LoggerModuleState where
  instanceId : Option Nat
  nextId : Nat
deriving DecidableEq, Repr

/-- A reference to one `Logger` object, identified by creation order. -/
structure LoggerHandle where
  id : Nat
deriving DecidableEq, Repr

/-- Module state before any call: no instance constructed yet. -/
def loggerModuleInit : LoggerModuleState := { instanceId := none, nextId := 0 }

/-- `Logger.getInstance()`: constructs the instance on first call and
stores it in the static field; afterwards always returns the stored
instance. -/
def Logger.getInstance (s : LoggerModuleState) : LoggerModuleState × LoggerHandle :=
  match s.instanceId with
  | some i => (s, ⟨i⟩)
  | none => ({ instanceId := some s.nextId, nextId := s.nextId + 1 }, ⟨s.nextId⟩)

/-- `export const logger = Logger.getInstance()`: the module-level
singleton export, evaluated once at module load. -/
def loggerModuleExport : LoggerModuleState × LoggerHandle :=
  Logger.getInstance loggerModuleInit

/-- Following the spec's words (§9 Design Notes): the logging facility is
"an injected logging capability passed to each component at construction,
… not a global singleton output channel".  The observable content of that
statement over the embedded module: acquiring the logging capability a
second time does not hand back the very same shared instance that the
first acquisition produced. -/
def loggingCapabilityIsInjected : Prop :=
  ∀ s : LoggerModuleState,
    (Logger.getInstance (Logger.getInstance s).1).2 ≠ (Logger.getInstance s).2

/-! ## `src/standalone/InstructionBuilder.ts` -/

/-- Adapter launch spec from `ConfigLoader`: `{ command, args, cwd }`
(fields as used by `InstructionBuilder` and the sample configurations). -/
structure AdapterConfig where
  command : String
  args : List String
  cwd : String
deriving DecidableEq, Repr

/-- One entry of a registry `commonIssues` list. -/
structure CommonIssue where
  problem : String
  solution : String
deriving DecidableEq, Repr

/-- The `sampleConfig` field of a registry entry. -/
structure SampleConfig where
  adapter : AdapterConfig
  defaults : List (String × JsonValue)
deriving Repr

/-- `DebuggerSetupInfo`: setup information for one supported language. -/
structure DebuggerSetupInfo where
  displayName : String
  emoji : String
  installCommand : String
  verifyCommand : String
  prerequisites : List String
  bestPractices : List String
  commonIssues : List CommonIssue
  sampleConfig : SampleConfig
deriving Repr

def pythonSetupInfo : DebuggerSetupInfo where
  displayName := "Python (debugpy)"
  emoji := "🐍"
  installCommand := "pip install debugpy"
  verifyCommand := "python -c \"import debugpy; print(debugpy.__version__)\""
  prerequisites :=
    ["Python 3.7+ installed",
     "debugpy package installed: `pip install debugpy`",
     "Virtual environment activated (if using one)"]
  bestPractices :=
    ["Set breakpoints inside function bodies (not on `def` lines)",
     "Use breakpoints after import statements to debug module loading",
     "Set breakpoints in `except` blocks to catch and inspect exceptions",
     "Break complex list comprehensions into regular loops for easier debugging",
     "Be aware that decorators can affect breakpoint placement"]
  commonIssues :=
    [⟨"ModuleNotFoundError for debugpy",
      "Run `pip install debugpy` in your active Python environment"⟩,
     ⟨"Wrong Python interpreter",
      "Ensure the correct virtual environment is activated"⟩,
     ⟨"Breakpoint on `def` line not hit",
      "Move breakpoint to first line inside the function body"⟩]
  sampleConfig :=
    { adapter :=
        { command := "python"
          args := ["-m", "debugpy.adapter"]
          cwd := "$\x7bworkspaceFolder\x7d" }
      defaults :=
        [("type", .str "python"),
         ("request", .str "launch"),
         ("console", .str "internalConsole"),
         ("justMyCode", .jbool true)] }

def nodeSetupInfo : DebuggerSetupInfo where
  displayName := "Node.js (js-debug)"
  emoji := "🟢"
  installCommand := "npm install"
  verifyCommand := "node --version"
  prerequisites :=
    ["Node.js 14+ installed",
     "js-debug adapter available (usually from VS Code extension)",
     "For standalone: extract js-debug from VS Code extensions"]
  bestPractices :=
    ["Set breakpoints inside async functions and callbacks",
     "Use breakpoints in `.then()` and `.catch()` blocks for Promise debugging",
     "Watch for variable scope issues in closures and nested functions",
     "Enable source maps when debugging TypeScript",
     "Set breakpoints in event handlers for event-driven code"]
  commonIssues :=
    [⟨"Cannot find js-debug adapter",
      "Install VS Code js-debug extension or configure path to standalone adapter"⟩,
     ⟨"Source maps not working",
      "Ensure `sourceMaps: true` in config and maps are generated"⟩,
     ⟨"Breakpoint in async code not hit",
      "Set breakpoint inside the async callback, not on the async call"⟩]
  sampleConfig :=
    { adapter :=
        { command := "node"
          args := ["$\x7benv:HOME\x7d/.vscode/extensions/ms-vscode.js-debug-*/src/dapDebugServer.js"]
          cwd := "$\x7bworkspaceFolder\x7d" }
      defaults :=
        [("type", .str "node"),
         ("request", .str "launch"),
         ("console", .str "internalConsole")] }

def javaSetupInfo : DebuggerSetupInfo where
  displayName := "Java (java-debug)"
  emoji := "☕"
  installCommand := "Install Java Extension Pack in VS Code"
  verifyCommand := "java -version"
  prerequisites :=
    ["JDK 11+ installed",
     "JAVA_HOME environment variable set",
     "Java Extension Pack or java-debug adapter",
     "Project compiled with debug symbols"]
  bestPractices :=
    ["Ensure `.class` files are up-to-date before debugging",
     "Set breakpoints inside `main` method for entry point debugging",
     "Use breakpoints in `catch` blocks to debug exceptions",
     "Verify all dependencies are in the classpath",
     "Use conditional breakpoints for loops with many iterations"]
  commonIssues :=
    [⟨"ClassNotFoundException", "Check classpath and package structure"⟩,
     ⟨"JAVA_HOME not set",
      "Set JAVA_HOME environment variable to JDK installation path"⟩,
     ⟨"Debug symbols missing", "Compile with `-g` flag or in Debug mode"⟩]
  sampleConfig :=
    { adapter :=
        { command := "java"
          args :=
            ["-jar",
             "$\x7benv:HOME\x7d/.vscode/extensions/vscjava.vscode-java-debug-*/server/com.microsoft.java.debug.plugin-*.jar"]
          cwd := "$\x7bworkspaceFolder\x7d" }
      defaults :=
        [("type", .str "java"),
         ("request", .str "launch"),
         ("console", .str "internalConsole")] }

def coreclrSetupInfo : DebuggerSetupInfo where
  displayName := "C# / .NET (coreclr)"
  emoji := "🔷"
  installCommand := "Install C# Dev Kit in VS Code"
  verifyCommand := "dotnet --version"
  prerequisites :=
    [".NET SDK 6.0+ installed",
     "C# Dev Kit extension (for VS Code integration)",
     "Project builds successfully in Debug mode"]
  bestPractices :=
    ["Ensure project builds in Debug configuration (not Release)",
     "Use line content matching for reliable breakpoint placement",
     "Clear breakpoints when stopping debug sessions",
     "For tests, use exact method names for precise filtering"]
  commonIssues :=
    [⟨"Debugger won\x27t start",
      "Install C# Dev Kit extension and ensure .NET SDK is installed"⟩,
     ⟨"Breakpoints not hit", "Build in Debug mode and verify paths are correct"⟩,
     ⟨"Test discovery issues",
      "Verify test project references and naming conventions"⟩]
  sampleConfig :=
    { adapter :=
        { command := "dotnet"
          args := ["tool", "run", "netcoredbg", "--interpreter=vscode"]
          cwd := "$\x7bworkspaceFolder\x7d" }
      defaults :=
        [("type", .str "coreclr"),
         ("request", .str "launch"),
         ("console", .str "internalConsole")] }

def goSetupInfo : DebuggerSetupInfo where
  displayName := "Go (dlv)"
  emoji := "🐹"
  installCommand := "go install github.com/go-delve/delve/cmd/dlv@latest"
  verifyCommand := "dlv version"
  prerequisites :=
    ["Go 1.18+ installed",
     "Delve debugger installed: `go install github.com/go-delve/delve/cmd/dlv@latest`",
     "GOPATH/bin in PATH"]
  bestPractices :=
    ["Set breakpoints on executable lines (not type definitions)",
     "Use breakpoints in goroutines carefully - they may run concurrently",
     "Debug tests with `dlv test`",
     "Watch for nil pointer dereferences"]
  commonIssues :=
    [⟨"dlv not found", "Install Delve and ensure GOPATH/bin is in PATH"⟩,
     ⟨"Cannot debug optimized binary",
      "Build with `-gcflags=\"all=-N -l\"` to disable optimizations"⟩]
  sampleConfig :=
    { adapter :=
        { command := "dlv"
          args := ["dap"]
          cwd := "$\x7bworkspaceFolder\x7d" }
      defaults :=
        [("type", .str "go"),
         ("request", .str "launch"),
         ("mode", .str "debug")] }

def cppdbgSetupInfo : DebuggerSetupInfo where
  displayName := "C/C++ (cppdbg/gdb/lldb)"
  emoji := "⚙️"
  installCommand := "Install C/C++ extension in VS Code"
  verifyCommand := "gdb --version || lldb --version"
  prerequisites :=
    ["GCC/Clang compiler installed",
     "GDB or LLDB debugger installed",
     "C/C++ extension (for VS Code integration)",
     "Binary compiled with debug symbols (-g flag)"]
  bestPractices :=
    ["Compile with `-g` flag for debug symbols",
     "Disable optimizations with `-O0` for accurate debugging",
     "Set breakpoints in function bodies, not declarations",
     "Watch for memory issues and pointer errors"]
  commonIssues :=
    [⟨"No debug symbols",
      "Compile with `-g` flag: `gcc -g program.c -o program`"⟩,
     ⟨"GDB/LLDB not found",
      "Install debugger: `apt install gdb` or `brew install lldb`"⟩]
  sampleConfig :=
    { adapter :=
        { command := "gdb"
          args := ["--interpreter=dap"]
          cwd := "$\x7bworkspaceFolder\x7d" }
      defaults :=
        [("type", .str "cppdbg"),
         ("request", .str "launch"),
         ("MIMode", .str "gdb")] }

def lldbSetupInfo : DebuggerSetupInfo where
  displayName := "Rust/LLDB"
  emoji := "🦀"
  installCommand := "Install CodeLLDB extension in VS Code"
  verifyCommand := "lldb --version"
  prerequisites :=
    ["Rust toolchain installed (rustup)",
     "LLDB debugger installed",
     "CodeLLDB extension (for VS Code integration)",
     "Binary compiled in debug mode (default for `cargo build`)"]
  bestPractices :=
    ["Use `cargo build` (not `--release`) for debug builds",
     "Set breakpoints inside function bodies",
     "Use conditional breakpoints for loops",
     "Watch for ownership and borrowing issues at runtime"]
  commonIssues :=
    [⟨"LLDB not found",
      "Install LLDB: `brew install llvm` (macOS) or `apt install lldb` (Linux)"⟩,
     ⟨"Symbols not loading",
      "Ensure building in debug mode: `cargo build` without `--release`"⟩]
  sampleConfig :=
    { adapter :=
        { command := "lldb-vscode"
          args := []
          cwd := "$\x7bworkspaceFolder\x7d" }
      defaults :=
        [("type", .str "lldb"),
         ("request", .str "launch"),
         ("cargo", .obj [("args", .arr [.str "build"])])] }

/-- `DEBUGGER_REGISTRY`: the fixed registry of supported debuggers, in
source (insertion) order of its keys. -/
def DEBUGGER_REGISTRY : List (String × DebuggerSetupInfo) :=
  [("python", pythonSetupInfo),
   ("node", nodeSetupInfo),
   ("java", javaSetupInfo),
   ("coreclr", coreclrSetupInfo),
   ("go", goSetupInfo),
   ("cppdbg", cppdbgSetupInfo),
   ("lldb", lldbSetupInfo)]

/-- `DEBUGGER_REGISTRY[language]`: record lookup by key. -/
def registryLookup (language : String) : Option DebuggerSetupInfo :=
  (DEBUGGER_REGISTRY.find? (fun e => e.1 == language)).map (·.2)

/-- `AdapterValidationResult`. -/
structure AdapterValidationResult where
  name : String
  isConfigured : Bool
  isValid : Bool
  issues : List String
  setupInstructions : Option String
deriving DecidableEq, Repr

/-- `ConfigValidationResult`. -/
structure ConfigValidationResult where
  hasConfig : Bool
  configPath : String
  adapters : List AdapterValidationResult
  globalIssues : List String
deriving DecidableEq, Repr

/-- `StandaloneConfig` (fields as used by `InstructionBuilder`: the
adapter entries iterated with `Object.entries(this.config.adapters)`). -/
structure StandaloneConfig where
  adapters : List (String × AdapterConfig)
deriving Repr

/-- The instance fields of `InstructionBuilder`. -/
structure InstructionBuilderState where
  docsPath : String
  workspaceFolder : String
  config : Option StandaloneConfig
  configPath : Option String
deriving Repr

/-- `new InstructionBuilder(docsPath, workspaceFolder)`. -/
def instructionBuilderNew (docsPath workspaceFolder : String) : InstructionBuilderState :=
  { docsPath := docsPath, workspaceFolder := workspaceFolder,
    config := none, configPath := none }

/-- `setConfig(config, configPath)`. -/
def setConfig (config : Option StandaloneConfig) (configPath : Option String)
    (b : InstructionBuilderState) : InstructionBuilderState :=
  { b with config := config, configPath := configPath }

/-- Result of `await this.checkCommandExists(command)` as observed inside
`validateAdapter`: the command was found in PATH, it was not found, or the
check itself threw (the outer `catch` branch). -/
inductive CommandCheckOutcome where
  | found (path : String)
  | notFound
  | threw

/-- Result of `await execAsync(verifyCommand, ...)`. -/
inductive VerifyOutcome where
  | success (stdout : String) (stderr : String)
  | failure (errorMessage : String)

/-- The effectful context of `InstructionBuilder`: the contents of
`docsPath/debug_instructions.md` (`none` when the read fails), and the
outcomes of the child-process probes. -/
structure InstructionEnv where
  coreFile : Option String
  commandCheck : String → CommandCheckOutcome
  verifyRun : String → VerifyOutcome

/-- `path.join(a, b)`. -/
def pathJoin (a b : String) : String := a ++ "/" ++ b

/-- `loadCoreInstructions()`: returns the file contents, or the fixed
fallback text when reading throws. -/
def loadCoreInstructions (env : InstructionEnv) : String :=
  match env.coreFile with
  | some contents => contents
  | none => "# DebugMCP - Debugging Instructions\n\nError loading core instructions."

/-- JSON serialisation of an `AdapterConfig`, field order as declared. -/
def adapterConfigToJson (a : AdapterConfig) : JsonValue :=
  .obj [("command", .str a.command),
        ("args", .arr (a.args.map .str)),
        ("cwd", .str a.cwd)]

/-- `buildSetupInstructions(name, info)`. -/
def buildSetupInstructions (name : String) (info : DebuggerSetupInfo) : String :=
  "\n".intercalate
    (["## Setup Instructions for " ++ info.displayName,
      "",
      "### Installation",
      "```bash",
      info.installCommand,
      "```",
      "",
      "### Prerequisites"] ++
     info.prerequisites.map (fun p => "- " ++ p) ++
     ["",
      "### Verify Installation",
      "```bash",
      info.verifyCommand,
      "```",
      "",
      "### Sample Configuration",
      "Add this to your `debugmcp.config.json`:",
      "```json",
      jsonStringify (.obj
        [("adapters", .obj [(name, adapterConfigToJson info.sampleConfig.adapter)]),
         ("defaults", .obj [(name, .obj info.sampleConfig.defaults)])]),
      "```"])

/-- `validateAdapter(name, config)`: marks the result invalid when the
command is missing (or the check throws), then, when the name is in the
registry, runs the verify command and records its warning or failure; a
verify failure also attaches setup instructions. -/
def validateAdapter (env : InstructionEnv) (name : String) (config : AdapterConfig) :
    AdapterValidationResult :=
  let base : AdapterValidationResult :=
    { name := name, isConfigured := true, isValid := true, issues := [],
      setupInstructions := none }
  let debuggerInfo := registryLookup name
  let afterCommand :=
    match env.commandCheck config.command with
    | .found _ => base
    | .notFound =>
      { base with
        isValid := false
        issues := base.issues ++
          ["Command \x27" ++ config.command ++ "\x27 not found in PATH"] }
    | .threw =>
      { base with
        isValid := false
        issues := base.issues ++
          ["Failed to verify command \x27" ++ config.command ++ "\x27"] }
  match debuggerInfo with
  | none => afterCommand
  | some info =>
    match env.verifyRun info.verifyCommand with
    | .success stdout stderr =>
      if stderr ≠ "" ∧ stdout = "" then
        { afterCommand with
          issues := afterCommand.issues ++ ["Verification warning: " ++ stderr.trim] }
      else afterCommand
    | .failure errorMessage =>
      { afterCommand with
        isValid := false
        issues := afterCommand.issues ++
          ["Debugger verification failed: " ++ errorMessage]
        setupInstructions := some (buildSetupInstructions name info) }

/-- `validateConfiguration()`: with no configuration set, reports
`hasConfig = false`, no adapters and the single global issue; otherwise
validates each configured adapter in order. -/
def validateConfiguration (env : InstructionEnv) (b : InstructionBuilderState) :
    ConfigValidationResult :=
  let basePath :=
    match b.configPath with
    | some p => p
    | none => pathJoin b.workspaceFolder "debugmcp.config.json"
  match b.config with
  | none =>
    { hasConfig := false, configPath := basePath, adapters := [],
      globalIssues := ["No debugmcp.config.json found in the workspace"] }
  | some cfg =>
    { hasConfig := true, configPath := basePath,
      adapters := cfg.adapters.map (fun e => validateAdapter env e.1 e.2),
      globalIssues := [] }

/-- JavaScript `s || fallback` on strings (empty string is falsy). -/
def orElseStr (s fallback : String) : String := if s = "" then fallback else s

/-- `info?.emoji || '🔧'` for an optional registry record. -/
def optEmoji (o : Option DebuggerSetupInfo) : String :=
  match o with
  | some i => orElseStr i.emoji "🔧"
  | none => "🔧"

/-- `info?.displayName || fallback` for an optional registry record. -/
def optDisplayName (o : Option DebuggerSetupInfo) (fallback : String) : String :=
  match o with
  | some i => orElseStr i.displayName fallback
  | none => fallback

/-- `buildConfigurationSection(validation)`. -/
def buildConfigurationSection (validation : ConfigValidationResult) : String :=
  let lines0 : List String := ["# 🔧 Your Debugger Configuration Status"]
  if validation.hasConfig = false then
    "\n".intercalate (lines0 ++
      ["",
       "## ⚠️ No Configuration Found",
       "",
       "No `debugmcp.config.json` was found at: `" ++ validation.configPath ++ "`",
       "",
       "### How to Create a Configuration",
       "",
       "Run the following command to create a default configuration:",
       "```bash",
       "npx debugmcp init",
       "```",
       "",
       "Or manually create `debugmcp.config.json` in your project root:",
       "```json",
       jsonStringify (.obj
         [("port", .num 3001),
          ("adapters", .obj
            [("python", adapterConfigToJson pythonSetupInfo.sampleConfig.adapter)]),
          ("defaults", .obj
            [("python", .obj pythonSetupInfo.sampleConfig.defaults)]),
          ("timeout", .num 180)]),
       "```",
       "",
       "### Available Debuggers",
       "",
       "DebugMCP supports the following debuggers:",
       ""] ++
      DEBUGGER_REGISTRY.map (fun e =>
        "- **" ++ e.2.emoji ++ " " ++ e.2.displayName ++ "** (`" ++ e.1 ++ "`): " ++
          e.2.installCommand))
  else
    let validAdapters := validation.adapters.filter (fun a => a.isValid)
    let invalidAdapters := validation.adapters.filter (fun a => !a.isValid)
    let linesValid : List String :=
      if validAdapters.length > 0 then
        ["",
         "## ✅ Configured Debuggers",
         "",
         "The following debuggers are configured and ready:",
         ""] ++
        validAdapters.map (fun a =>
          let info := registryLookup a.name
          "- **" ++ optEmoji info ++ " " ++ optDisplayName info a.name ++ "**")
      else []
    let linesInvalid : List String :=
      if invalidAdapters.length > 0 then
        ["",
         "## ⚠️ Debuggers Needing Setup",
         "",
         "The following debuggers are configured but have issues:",
         ""] ++
        invalidAdapters.flatMap (fun adapter =>
          let info := registryLookup adapter.name
          ["### " ++ optEmoji info ++ " " ++ optDisplayName info adapter.name,
           "",
           "**Issues:**"] ++
          adapter.issues.map (fun issue => "- ❌ " ++ issue) ++
          [""] ++
          (match adapter.setupInstructions with
           | some si => [si, ""]
           | none =>
             match info with
             | some i => [buildSetupInstructions adapter.name i, ""]
             | none => []))
      else []
    let unconfiguredDebuggers := DEBUGGER_REGISTRY.filter (fun e =>
      !(validation.adapters.any (fun a => a.name == e.1)))
    let linesUnconfigured : List String :=
      if unconfiguredDebuggers.length > 0 then
        ["",
         "## 📦 Other Available Debuggers",
         "",
         "You can add support for these debuggers by updating your `debugmcp.config.json`:",
         ""] ++
        unconfiguredDebuggers.map (fun e =>
          "- **" ++ e.2.emoji ++ " " ++ e.2.displayName ++ "** (`" ++ e.1 ++ "`)")
      else []
    "\n".intercalate (lines0 ++ linesValid ++ linesInvalid ++ linesUnconfigured)

/-- `buildLanguageSpecificSection(adapters)`: tips for each adapter found
in the registry (others are skipped with `continue`). -/
def buildLanguageSpecificSection (adapters : List AdapterValidationResult) : String :=
  "\n".intercalate
    (["# 📚 Language-Specific Debugging Tips"] ++
     adapters.flatMap (fun adapter =>
       match registryLookup adapter.name with
       | none => []
       | some info =>
         ["",
          "## " ++ info.emoji ++ " " ++ info.displayName,
          "",
          "### Best Practices"] ++
         info.bestPractices.map (fun bp => "- " ++ bp) ++
         ["",
          "### Common Issues & Solutions",
          "",
          "| Problem | Solution |",
          "|---------|----------|"] ++
         info.commonIssues.map (fun ci =>
           "| " ++ ci.problem ++ " | " ++ ci.solution ++ " |")))

/-- The `sections` array assembled by `buildInstructions()`: core
instructions, configuration status, and — only when a configuration with
at least one adapter entry is present — the language-specific tips. -/
def buildSections (env : InstructionEnv) (b : InstructionBuilderState) : List String :=
  let validation := validateConfiguration env b
  [loadCoreInstructions env, buildConfigurationSection validation] ++
    (if validation.hasConfig = true ∧ validation.adapters.length > 0 then
      [buildLanguageSpecificSection validation.adapters]
    else [])

/-- `buildInstructions()`: the sections joined with `'\n\n---\n\n'`. -/
def buildInstructions (env : InstructionEnv) (b : InstructionBuilderState) : String :=
  "\n\n---\n\n".intercalate (buildSections env b)

/-- `getSetupInstructionsForLanguage(language)`: `null` when the language
is not in the registry, otherwise the built setup instructions. -/
def InstructionBuilder.getSetupInstructionsForLanguage (language : String) : Option String :=
  match registryLookup language with
  | none => none
  | some info => some (buildSetupInstructions language info)

/-- `InstructionBuilder.getSupportedLanguages()`: the registry keys. -/
def InstructionBuilder.getSupportedLanguages : List String :=
  DEBUGGER_REGISTRY.map (fun e => e.1)

/-- `InstructionBuilder.getDebuggerInfo(language)`. -/
def InstructionBuilder.getDebuggerInfo (language : String) : Option DebuggerSetupInfo :=
  registryLookup language

/-! ## Spec-modelled core components

The implementation files `DAPClient.ts`, `DebugAdapterManager.ts`,
`DebugStateTracker.ts` and `StandaloneDAPBackend.ts` are not part of the
available source tree — only their export declarations in
`standalone/index.ts` are.  The definitions below are modelled from the
spec (§3–§5, §7) and are marked as such. -/

/-- Modelled from the spec (§7): the stable error kinds of the core. -/
inductive ErrorKind where
  | unknownAdapter
  | spawnFailed (cause : String)
  | handshakeFailed (stage : String) (cause : String)
  | transportClosed
  | requestTimeout (command : String) (seq : Nat)
  | framingError
  | noActiveSession
  | notStopped
  | operationInProgress
  | breakpointRejected
deriving DecidableEq, Repr

/-- Modelled from the spec (§3 Session): the run state of one session. -/
inductive SessionRunState where
  | idle
  | launching
  | initialized
  | running
  | stopped (reason : String)
  | terminated
  | failed (err : String)
deriving DecidableEq, Repr

/-- `Initialized`, `Running` or `Stopped`: states in which operations are
accepted at all (spec §4.5). -/
def SessionRunState.isActive : SessionRunState → Bool
  | .initialized | .running | .stopped _ => true
  | _ => false

/-- Whether the run state is `Stopped` (spec §4.5). -/
def SessionRunState.isStoppedState : SessionRunState → Bool
  | .stopped _ => true
  | _ => false

/-- Modelled from the spec (§3, missing `DAPClient.ts`): a
`PendingRequest` holds the allocated sequence number and the issuing
command (timestamps and deadlines are kept abstract — timeout expiry is
delivered as an explicit action). -/
structure PendingRequest where
  seq : Nat
  command : String
deriving DecidableEq, Repr

/-- The result delivered to a suspended `sendRequest` caller. -/
inductive RequestResult where
  | response (body : String)
  | failed (e : ErrorKind)
deriving DecidableEq, Repr

/-- Modelled from the spec (§4.2, missing `DAPClient.ts`): the Protocol
Client's state — the monotonic sequence counter, the table of pending
requests, the results delivered to callers (in delivery order, keyed by
the pending request they unblock), the session run state the read loop
feeds, and the diagnostic log. -/
structure DAPClientState where
  nextSeq : Nat
  pending : List PendingRequest
  outcomes : List (PendingRequest × RequestResult)
  session : SessionRunState
  log : List String
deriving DecidableEq, Repr

def dapClientInit : DAPClientState :=
  { nextSeq := 1, pending := [], outcomes := [], session := .idle, log := [] }

/-- Modelled from the spec (§4.2, missing `DAPClient.ts`): `sendRequest`
allocates the next sequence number, stores a `PendingRequest` and writes
the framed request; the caller stays suspended until a result for that
sequence number is delivered. -/
def sendRequest (command : String) (st : DAPClientState) : DAPClientState × Nat :=
  let seq := st.nextSeq
  ({ st with nextSeq := seq + 1, pending := st.pending ++ [⟨seq, command⟩] }, seq)

/-- Event names the read loop understands (spec §4.4 transitions and the
usual informational events). -/
def knownEventNames : List String :=
  ["initialized", "stopped", "continued", "output", "thread", "breakpoint",
   "terminated", "exited"]

/-- Modelled from the spec (§4.4, missing `DebugStateTracker.ts`): how a
known event updates the session run state. -/
def applyKnownEvent (name : String) (body : String) (st : DAPClientState) :
    DAPClientState :=
  if name = "stopped" then { st with session := .stopped body }
  else if name = "continued" then { st with session := .running }
  else if name = "terminated" ∨ name = "exited" then { st with session := .terminated }
  else st

/-- Modelled from the spec (§4.2/§7, missing `DAPClient.ts`): an incoming
response is routed to the pending request carrying its sequence number;
a response with no pending entry is logged and dropped. -/
def handleResponse (seq : Nat) (body : String) (st : DAPClientState) :
    DAPClientState :=
  match st.pending.find? (fun p => p.seq == seq) with
  | some p =>
    { st with
      pending := st.pending.filter (fun q => q.seq != seq)
      outcomes := st.outcomes ++ [(p, .response body)] }
  | none =>
    { st with log := st.log ++ ["Discarded response with unknown seq " ++ toString seq] }

/-- Modelled from the spec (§4.2/§7, missing `DAPClient.ts`): a known
event is applied; an event with an unknown name is logged and dropped. -/
def handleEvent (name : String) (body : String) (st : DAPClientState) :
    DAPClientState :=
  if knownEventNames.contains name then applyKnownEvent name body st
  else { st with log := st.log ++ ["Dropped unknown event " ++ name] }

/-- Modelled from the spec (§4.2, missing `DAPClient.ts`): when a pending
request's deadline elapses, the caller is failed with
`RequestTimeout{command, seq}` and the entry is removed. -/
def handleTimeout (seq : Nat) (st : DAPClientState) : DAPClientState :=
  match st.pending.find? (fun p => p.seq == seq) with
  | some p =>
    { st with
      pending := st.pending.filter (fun q => q.seq != seq)
      outcomes := st.outcomes ++ [(p, .failed (.requestTimeout p.command p.seq))] }
  | none => st

/-- Modelled from the spec (§4.3 crash detection, missing
`DebugAdapterManager.ts`): on process death the session is marked Failed
and every pending request is unblocked with `TransportClosed`. -/
def handleProcessExit (err : String) (st : DAPClientState) : DAPClientState :=
  { st with
    pending := []
    outcomes := st.outcomes ++ st.pending.map (fun p => (p, .failed .transportClosed))
    session := .failed err }

/-- One observable action of the Protocol Client's world. -/
inductive ClientAction where
  | send (command : String)
  | response (seq : Nat) (body : String)
  | event (name : String) (body : String)
  | timeoutAt (seq : Nat)
  | processExit (err : String)

def clientStep (a : ClientAction) (st : DAPClientState) : DAPClientState :=
  match a with
  | .send c => (sendRequest c st).1
  | .response s b => handleResponse s b st
  | .event n b => handleEvent n b st
  | .timeoutAt s => handleTimeout s st
  | .processExit e => handleProcessExit e st

def clientRun (acts : List ClientAction) (st : DAPClientState) : DAPClientState :=
  acts.foldl (fun s a => clientStep a s) st

/-- The sequence-number discipline (spec §3 PendingRequest: unique per
client instance, monotonically increasing, never reused): every pending
sequence number is below the counter, and no two coincide. -/
def SeqInvariant (st : DAPClientState) : Prop :=
  (∀ p ∈ st.pending, p.seq < st.nextSeq) ∧
    (st.pending.map PendingRequest.seq).Nodup

/-- Modelled from the spec (§3, missing `DebugStateTracker.ts`): one
cached stack frame. -/
structure FrameInfo where
  frameId : Nat
  file : String
  line : Nat
  name : String
deriving DecidableEq, Repr

/-- Modelled from the spec (§3, missing `DebugStateTracker.ts`): one
cached variable. -/
structure VariableInfo where
  name : String
  value : String
deriving DecidableEq, Repr

/-- Modelled from the spec (§3, missing `DebugStateTracker.ts`): a tracked
breakpoint, whose line and verified flag reflect the adapter's answer. -/
structure Breakpoint where
  file : String
  line : Nat
  verified : Bool
deriving DecidableEq, Repr

/-- Modelled from the spec (§4.4, missing `DebugStateTracker.ts`): the
session-state tracker's mutable model. -/
structure TrackerState where
  runState : SessionRunState
  frames : List FrameInfo
  vars : List VariableInfo
  breakpoints : List Breakpoint
deriving DecidableEq, Repr

/-- The resume-class operations of §4.4/§4.5. -/
inductive ResumeKind where
  | continueExec
  | stepOver
  | stepInto
  | stepOut
  | restart
deriving DecidableEq, Repr

/-- Modelled from the spec (§4.4, missing `DebugStateTracker.ts`):
acceptance of `continue`/`step*`/`restart` moves the run state to Running
and clears the frame and variable caches in the same update — the state
handed back to the triggering call already has them cleared. -/
def acceptResume (_k : ResumeKind) (st : TrackerState) : TrackerState :=
  { st with runState := .running, frames := [], vars := [] }

/-- Modelled from the spec (§4.5, missing `StandaloneDAPBackend.ts`): the
per-operation state guard — `NoActiveSession` unless the session is
Initialized/Running/Stopped, `NotStopped` for Stopped-only operations in
any other active state. -/
def checkOperationState (requiresStopped : Bool) (rs : SessionRunState) :
    Except ErrorKind Unit :=
  if !rs.isActive then .error .noActiveSession
  else if requiresStopped && !rs.isStoppedState then .error .notStopped
  else .ok ()

/-- A high-level Backend Orchestrator operation and whether it belongs to
the Stopped-only group (frame/variable inspection, expression
evaluation). -/
structure BackendOperation where
  name : String
  requiresStopped : Bool
deriving DecidableEq, Repr

/-- Modelled from the spec (§6 tool-invocation surface, §4.5): the
session-consuming high-level operations. -/
def backendOperations : List BackendOperation :=
  [⟨"stop_debugging", false⟩,
   ⟨"step_over", false⟩,
   ⟨"step_into", false⟩,
   ⟨"step_out", false⟩,
   ⟨"continue_execution", false⟩,
   ⟨"restart_debugging", false⟩,
   ⟨"add_breakpoint", false⟩,
   ⟨"remove_breakpoint", false⟩,
   ⟨"list_breakpoints", false⟩,
   ⟨"get_debug_status", false⟩,
   ⟨"get_variables", true⟩,
   ⟨"evaluate_expression", true⟩]

/-- Modelled from the spec (§4.5, missing `StandaloneDAPBackend.ts`): the
state admission step every high-level operation runs first. -/
def runOperationGuard (op : BackendOperation) (rs : SessionRunState) :
    Except ErrorKind Unit :=
  checkOperationState op.requiresStopped rs

/-- Modelled from the spec (§4.5, missing `StandaloneDAPBackend.ts`): a
resume-class call — guard, then synchronous acceptance on the tracker. -/
def backendResume (k : ResumeKind) (st : TrackerState) :
    Except ErrorKind TrackerState :=
  match checkOperationState false st.runState with
  | .error e => .error e
  | .ok _ => .ok (acceptResume k st)

/-- Modelled from the spec (§4.5, missing `StandaloneDAPBackend.ts`):
frame inspection, a Stopped-only read. -/
def readFrames (st : TrackerState) : Except ErrorKind (List FrameInfo) :=
  match checkOperationState true st.runState with
  | .error e => .error e
  | .ok _ => .ok st.frames

/-- Modelled from the spec (§4.5, missing `StandaloneDAPBackend.ts`):
variable inspection, a Stopped-only read. -/
def readVariables (st : TrackerState) : Except ErrorKind (List VariableInfo) :=
  match checkOperationState true st.runState with
  | .error e => .error e
  | .ok _ => .ok st.vars

/-- Modelled from the spec (§4.4 Breakpoint application, missing
`DebugStateTracker.ts`): `setBreakpoints(file, lines)` sends the full
desired line set for the file in one request and replaces the tracker's
set for that file with the adapter's verified response
(`adapterVerify file lines`), leaving other files' entries alone. -/
def setBreakpoints (adapterVerify : String → List Nat → List Breakpoint)
    (file : String) (lines : List Nat) (bps : List Breakpoint) : List Breakpoint :=
  bps.filter (fun b => b.file != file) ++ adapterVerify file lines

/-- An adapter that verifies every requested line exactly where it was
requested. -/
def exactVerifyAdapter (file : String) (lines : List Nat) : List Breakpoint :=
  lines.map (fun l => { file := file, line := l, verified := true })

/-- The tracked breakpoints of one file. -/
def breakpointsFor (file : String) (bps : List Breakpoint) : List Breakpoint :=
  bps.filter (fun b => b.file == file)

/-- Modelled from the spec (§3, missing `DebugAdapterManager.ts`): the
lifecycle state of an `AdapterProcess`. -/
inductive AdapterProcessState where
  | starting
  | ready
  | exited (code : Int)
  | crashed (err : String)
deriving DecidableEq, Repr

/-- Exit code recorded when the manager force-kills the process. -/
def forceKillExitCode : Int := -9

/-- Modelled from the spec (§4.3 `terminate()`, missing
`DebugAdapterManager.ts`): sends a graceful disconnect/terminate with a
short timeout and force-kills the process when it has not exited in time
(`gracefulExits` says whether it did); on a process that has already
exited (or crashed) it is a no-op and still succeeds. -/
def terminate (gracefulExits : Bool) (st : AdapterProcessState) :
    Except ErrorKind AdapterProcessState :=
  match st with
  | .exited code => .ok (.exited code)
  | .crashed err => .ok (.crashed err)
  | .starting => .ok (.exited (if gracefulExits then 0 else forceKillExitCode))
  | .ready => .ok (.exited (if gracefulExits then 0 else forceKillExitCode))

/-! ## Theorems -/

/-- With pairwise-distinct pending sequence numbers, lookup by the
sequence number of a stored request finds exactly that request. -/
theorem find_pending_of_mem {l : List PendingRequest} {p : PendingRequest}
    (hnd : (l.map PendingRequest.seq).Nodup) (hm : p ∈ l) :
    l.find? (fun q => q.seq == p.seq) = some p := by
  induction l with
  | nil => cases hm
  | cons a t ih =>
    rw [List.map_cons, List.nodup_cons] at hnd
    rcases List.mem_cons.mp hm with h | h
    · subst h
      simp [List.find?]
    · have hne : a.seq ≠ p.seq := fun he =>
        hnd.1 (he ▸ List.mem_map_of_mem PendingRequest.seq h)
      rw [List.find?_cons_of_neg _ (by simp [hne])]
      exact ih hnd.2 h

/-- `SeqInvariant` holds for a fresh client. -/
theorem seqInvariant_init : SeqInvariant dapClientInit := by
  constructor
  · intro p hp; cases hp
  · simp [dapClientInit]

/-- Shrinking the pending table while not decreasing the counter keeps
`SeqInvariant`. -/
theorem seqInvariant_of_sublist {st st' : DAPClientState}
    (hsub : st'.pending.Sublist st.pending) (hseq : st.nextSeq ≤ st'.nextSeq)
    (h : SeqInvariant st) : SeqInvariant st' := by
  obtain ⟨hb, hnd⟩ := h
  constructor
  · intro p hp
    exact lt_of_lt_of_le (hb p (hsub.subset hp)) hseq
  · exact List.Nodup.sublist (hsub.map PendingRequest.seq) hnd

/-- Every action of the client preserves the sequence-number
discipline. -/
theorem seqInvariant_step (a : ClientAction) (st : DAPClientState)
    (h : SeqInvariant st) : SeqInvariant (clientStep a st) := by
  obtain ⟨hb, hnd⟩ := h
  cases a with
  | send c =>
    constructor
    · intro p hp
      simp only [clientStep, sendRequest, List.mem_append, List.mem_singleton] at hp
      rcases hp with hp | rfl
      · exact Nat.lt_succ_of_lt (hb p hp)
      · exact Nat.lt_succ_self _
    · simp only [clientStep, sendRequest, List.map_append]
      rw [List.nodup_append]
      refine ⟨hnd, by simp, ?_⟩
      intro s hs
      simp only [List.map_cons, List.map_nil, List.mem_singleton]
      rcases List.mem_map.mp hs with ⟨p, hp, rfl⟩
      exact fun he => absurd he (Nat.ne_of_lt (hb p hp))
  | response s b =>
    show SeqInvariant (handleResponse s b st)
    unfold handleResponse
    split
    · exact seqInvariant_of_sublist (List.filter_sublist _) le_rfl ⟨hb, hnd⟩
    · exact ⟨hb, hnd⟩
  | event n b =>
    show SeqInvariant (handleEvent n b st)
    unfold handleEvent applyKnownEvent
    split
    · split
      · exact ⟨hb, hnd⟩
      · split
        · exact ⟨hb, hnd⟩
        · split
          · exact ⟨hb, hnd⟩
          · exact ⟨hb, hnd⟩
    · exact ⟨hb, hnd⟩
  | timeoutAt s =>
    show SeqInvariant (handleTimeout s st)
    unfold handleTimeout
    split
    · exact seqInvariant_of_sublist (List.filter_sublist _) le_rfl ⟨hb, hnd⟩
    · exact ⟨hb, hnd⟩
  | processExit e =>
    constructor
    · intro p hp; cases hp
    · simp [clientStep, handleProcessExit]

/-- Runs preserve the sequence-number discipline. -/
theorem seqInvariant_run (acts : List ClientAction) (st : DAPClientState)
    (h : SeqInvariant st) : SeqInvariant (clientRun acts st) := by
  induction acts generalizing st with
  | nil => exact h
  | cons a t ih => exact ih _ (seqInvariant_step a st h)

/-- Claim C1: for every sequence of `sendRequest` calls issued before
their predecessors' responses arrive, the Protocol Client routes each
incoming response to the PendingRequest whose sequence number the
response carries, regardless of the order in which responses arrive; on
timeout the call fails with `RequestTimeout{command, seq}`, and on
adapter process death it fails with `TransportClosed`.  (The
sequence-number discipline holds along every run, so the routed request
is unique.) -/
theorem dapclient_response_routing :
    (∀ acts : List ClientAction, SeqInvariant (clientRun acts dapClientInit)) ∧
    (∀ (st : DAPClientState) (p : PendingRequest) (body : String),
      SeqInvariant st → p ∈ st.pending →
      handleResponse p.seq body st =
        { st with
          pending := st.pending.filter (fun q => q.seq != p.seq)
          outcomes := st.outcomes ++ [(p, .response body)] }) ∧
    (∀ (st : DAPClientState) (p : PendingRequest),
      SeqInvariant st → p ∈ st.pending →
      handleTimeout p.seq st =
        { st with
          pending := st.pending.filter (fun q => q.seq != p.seq)
          outcomes := st.outcomes ++ [(p, .failed (.requestTimeout p.command p.seq))] }) ∧
    (∀ (st : DAPClientState) (err : String),
      (handleProcessExit err st).outcomes =
        st.outcomes ++ st.pending.map (fun p => (p, .failed .transportClosed)) ∧
      (handleProcessExit err st).pending = [] ∧
      (handleProcessExit err st).session = .failed err) := by
  refine ⟨?_, ?_, ?_, ?_⟩
  · intro acts
    exact seqInvariant_run acts dapClientInit seqInvariant_init
  · intro st p body h hm
    unfold handleResponse
    rw [find_pending_of_mem h.2 hm]
  · intro st p h hm
    unfold handleTimeout
    rw [find_pending_of_mem h.2 hm]
  · intro st err
    exact ⟨rfl, rfl, rfl⟩

/-- Witness for C1: two requests outstanding at once; the response to the
second-issued request arrives first and is routed to it, not to the
first. -/
theorem dapclient_response_routing_witness :
    handleResponse 2 "varsBody"
        (sendRequest "variables" (sendRequest "threads" dapClientInit).1).1 =
      { nextSeq := 3
        pending := [⟨1, "threads"⟩]
        outcomes := [(⟨2, "variables"⟩, .response "varsBody")]
        session := .idle
        log := [] } := by
  have h := dapclient_response_routing.2.1
    (sendRequest "variables" (sendRequest "threads" dapClientInit).1).1
    ⟨2, "variables"⟩ "varsBody" ⟨by decide, by decide⟩ (by decide)
  rw [show (2 : Nat) = (PendingRequest.mk 2 "variables").seq from rfl, h]
  decide

/-- Claim C5: a response whose sequence number matches no PendingRequest,
and an event with an unknown name, are discarded and logged: processing
them is total (the handlers are functions) and changes neither the
pending table, nor the delivered outcomes, nor the session state — only
the log grows. -/
theorem unmatched_messages_dropped :
    (∀ (st : DAPClientState) (seq : Nat) (body : String),
      (∀ p ∈ st.pending, p.seq ≠ seq) →
      handleResponse seq body st =
        { st with
          log := st.log ++ ["Discarded response with unknown seq " ++ toString seq] }) ∧
    (∀ (st : DAPClientState) (name body : String),
      knownEventNames.contains name = false →
      handleEvent name body st =
        { st with log := st.log ++ ["Dropped unknown event " ++ name] }) := by
  constructor
  · intro st seq body h
    have hf : st.pending.find? (fun p => p.seq == seq) = none := by
      rw [List.find?_eq_none]
      intro p hp
      simpa using h p hp
    unfold handleResponse
    rw [hf]
  · intro st name body h
    unfold handleEvent
    rw [h]
    simp

/-- Witness for C5: an unmatched response and an unknown event against a
concrete client state leave everything but the log unchanged. -/
theorem unmatched_messages_dropped_witness :
    handleResponse 5 "b" dapClientInit =
      { dapClientInit with log := ["Discarded response with unknown seq 5"] } ∧
    handleEvent "loadedSource" "b" dapClientInit =
      { dapClientInit with log := ["Dropped unknown event loadedSource"] } := by
  constructor
  · have h := unmatched_messages_dropped.1 dapClientInit 5 "b" (by decide)
    rw [h]
    decide
  · have h := unmatched_messages_dropped.2 dapClientInit "loadedSource" "b" (by decide)
    rw [h]
    decide

/-- Claim C6: `terminate()` is idempotent: terminating an already-exited
process is a no-op that succeeds, and for every process state a second
`terminate()` (under any graceful/force outcome) leaves the same final
state as the first. -/
theorem terminate_idempotent :
    (∀ (g : Bool) (code : Int), terminate g (.exited code) = .ok (.exited code)) ∧
    (∀ (g g' : Bool) (st : AdapterProcessState),
      ∃ st1, terminate g st = .ok st1 ∧ terminate g' st1 = .ok st1) := by
  constructor
  · intro g code
    rfl
  · intro g g' st
    cases st with
    | starting => exact ⟨.exited (if g then 0 else forceKillExitCode), rfl, rfl⟩
    | ready => exact ⟨.exited (if g then 0 else forceKillExitCode), rfl, rfl⟩
    | exited code => exact ⟨.exited code, rfl, rfl⟩
    | crashed err => exact ⟨.crashed err, rfl, rfl⟩

/-- Claim C2: cached frame/variable data is valid only while the run
state is Stopped: on every transition out of Stopped (acceptance of
continue, any step, or restart) the frame and variable caches are
cleared synchronously — the state the triggering call returns already
has them empty — so no subsequent read operation can observe stale
frames after a resume has been issued. -/
theorem caches_cleared_on_resume :
    ∀ (st : TrackerState) (k : ResumeKind) (r : String),
      st.runState = .stopped r →
      backendResume k st =
        .ok { st with runState := .running, frames := [], vars := [] } ∧
      (acceptResume k st).frames = [] ∧
      (acceptResume k st).vars = [] ∧
      (acceptResume k st).runState = .running ∧
      readFrames (acceptResume k st) = .error .notStopped ∧
      readVariables (acceptResume k st) = .error .notStopped := by
  intro st k r h
  refine ⟨?_, rfl, rfl, rfl, rfl, rfl⟩
  simp [backendResume, checkOperationState, h, SessionRunState.isActive, acceptResume]

/-- Witness for C2: a stopped session with one cached frame and one
cached variable; a step-over acceptance hands back the cleared state. -/
theorem caches_cleared_on_resume_witness :
    backendResume .stepOver
        ⟨.stopped "breakpoint", [⟨0, "main.py", 5, "main"⟩], [⟨"x", "1"⟩], []⟩ =
      .ok ⟨.running, [], [], []⟩ ∧
    readFrames (acceptResume .stepOver
        ⟨.stopped "breakpoint", [⟨0, "main.py", 5, "main"⟩], [⟨"x", "1"⟩], []⟩) =
      .error .notStopped := by
  have h := caches_cleared_on_resume
    ⟨.stopped "breakpoint", [⟨0, "main.py", 5, "main"⟩], [⟨"x", "1"⟩], []⟩
    .stepOver "breakpoint" rfl
  exact ⟨h.1, h.2.2.2.2.1⟩

/-- Claim C3: `setBreakpoints` is declarative per file, not incremental:
re-sending a file's desired set replaces the tracked set for that file
with the adapter's latest verified response (other files untouched), and
concretely `setBreakpoints(file, [10, 20])` followed by
`setBreakpoints(file, [20])` tracks exactly the verified breakpoint at
line 20 — never the union of the two calls. -/
theorem setBreakpoints_declarative :
    (∀ (verify : String → List Nat → List Breakpoint) (bps : List Breakpoint)
        (f : String),
      (∀ ls b, b ∈ verify f ls → b.file = f) →
      ∀ ls1 ls2,
        setBreakpoints verify f ls2 (setBreakpoints verify f ls1 bps) =
          setBreakpoints verify f ls2 bps) ∧
    (∀ (bps : List Breakpoint) (f : String),
      breakpointsFor f
          (setBreakpoints exactVerifyAdapter f [20]
            (setBreakpoints exactVerifyAdapter f [10, 20] bps)) =
        [⟨f, 20, true⟩] ∧
      ∀ b ∈ breakpointsFor f
          (setBreakpoints exactVerifyAdapter f [20]
            (setBreakpoints exactVerifyAdapter f [10, 20] bps)),
        b.line ≠ 10) := by
  have hkey : ∀ (f : String) (l : List Breakpoint),
      (l.filter (fun b => b.file != f)).filter (fun b => b.file == f) = [] := by
    intro f l
    rw [List.filter_filter]
    apply List.filter_eq_nil_iff.mpr
    intro b _
    by_cases hb : b.file = f <;> simp [hb]
  have hself : ∀ (f : String) (l : List Breakpoint),
      (l.filter (fun b => b.file != f)).filter (fun b => b.file != f) =
        l.filter (fun b => b.file != f) := by
    intro f l
    rw [List.filter_filter]
    simp
  constructor
  · intro verify bps f hv ls1 ls2
    unfold setBreakpoints
    rw [List.filter_append, hself]
    have h2 : (verify f ls1).filter (fun b => b.file != f) = [] := by
      apply List.filter_eq_nil_iff.mpr
      intro b hb
      simp [hv ls1 b hb]
    rw [h2, List.append_nil]
  · intro bps f
    constructor
    · unfold breakpointsFor setBreakpoints exactVerifyAdapter
      simp only [List.map_cons, List.map_nil, List.filter_append, hkey]
      simp [hself, hkey]
    · intro b hb
      unfold breakpointsFor setBreakpoints exactVerifyAdapter at hb
      simp only [List.map_cons, List.map_nil, List.filter_append, hkey] at hb
      simp [hself, hkey] at hb
      simp [hb]

/-- Witness for C3: with an adapter that verifies lines exactly as
requested, the two-call scenario from an empty tracker yields exactly
the line-20 breakpoint. -/
theorem setBreakpoints_declarative_witness :
    setBreakpoints exactVerifyAdapter "main.py" [20]
        (setBreakpoints exactVerifyAdapter "main.py" [10, 20] []) =
      setBreakpoints exactVerifyAdapter "main.py" [20] [] ∧
    breakpointsFor "main.py"
        (setBreakpoints exactVerifyAdapter "main.py" [20]
          (setBreakpoints exactVerifyAdapter "main.py" [10, 20] [])) =
      [⟨"main.py", 20, true⟩] := by
  constructor
  · exact setBreakpoints_declarative.1 exactVerifyAdapter [] "main.py"
      (by
        intro ls b hb
        simp only [exactVerifyAdapter, List.mem_map] at hb
        obtain ⟨l, _, rfl⟩ := hb
        rfl)
      [10, 20] [20]
  · exact (setBreakpoints_declarative.2 [] "main.py").1

/-- Claim C4: every high-level Backend Orchestrator operation fails with
`NoActiveSession` when no session is Initialized/Running/Stopped, and
every Stopped-only operation (frame/variable inspection, expression
evaluation) fails with `NotStopped` when the session is active but not
Stopped. -/
theorem backend_guard_errors :
    ∀ op ∈ backendOperations, ∀ rs : SessionRunState,
      (rs.isActive = false → runOperationGuard op rs = .error .noActiveSession) ∧
      (rs.isActive = true → op.requiresStopped = true → rs.isStoppedState = false →
        runOperationGuard op rs = .error .notStopped) := by
  intro op _ rs
  constructor
  · intro h
    simp [runOperationGuard, checkOperationState, h]
  · intro h1 h2 h3
    simp [runOperationGuard, checkOperationState, h1, h2, h3]

/-- Witness for C4: `get_variables` against an idle session fails with
`NoActiveSession`, and against a running (active, not stopped) session
fails with `NotStopped`. -/
theorem backend_guard_errors_witness :
    runOperationGuard ⟨"get_variables", true⟩ .idle = .error .noActiveSession ∧
    runOperationGuard ⟨"get_variables", true⟩ .running = .error .notStopped := by
  constructor
  · exact (backend_guard_errors ⟨"get_variables", true⟩ (by decide) .idle).1 rfl
  · exact (backend_guard_errors ⟨"get_variables", true⟩ (by decide) .running).2 rfl rfl rfl

/-- Claim C7: the adapter setup registry is a fixed enumerated mapping:
`getSupportedLanguages()` returns exactly the keys python, node, java,
coreclr, go, cppdbg, lldb; for every key outside this set
`getDebuggerInfo` returns undefined and `getSetupInstructionsForLanguage`
returns null; for every key in the set both return the registry record
and the instructions built from it. -/
theorem registry_fixed_enumeration :
    InstructionBuilder.getSupportedLanguages =
      ["python", "node", "java", "coreclr", "go", "cppdbg", "lldb"] ∧
    (∀ k, k ∉ InstructionBuilder.getSupportedLanguages →
      InstructionBuilder.getDebuggerInfo k = none ∧
      InstructionBuilder.getSetupInstructionsForLanguage k = none) ∧
    (∀ k, k ∈ InstructionBuilder.getSupportedLanguages →
      ∃ info, InstructionBuilder.getDebuggerInfo k = some info ∧
        InstructionBuilder.getSetupInstructionsForLanguage k =
          some (buildSetupInstructions k info)) := by
  refine ⟨rfl, ?_, ?_⟩
  · intro k hk
    have hf : DEBUGGER_REGISTRY.find? (fun e => e.1 == k) = none := by
      rw [List.find?_eq_none]
      intro e he hek
      rw [beq_iff_eq] at hek
      exact hk (hek ▸ List.mem_map_of_mem (fun x => x.1) he)
    constructor
    · show registryLookup k = none
      unfold registryLookup
      rw [hf]
      rfl
    · show InstructionBuilder.getSetupInstructionsForLanguage k = none
      unfold InstructionBuilder.getSetupInstructionsForLanguage registryLookup
      rw [hf]
      rfl
  · intro k hk
    have hk' : k = "python" ∨ k = "node" ∨ k = "java" ∨ k = "coreclr" ∨
        k = "go" ∨ k = "cppdbg" ∨ k = "lldb" := by
      simpa [InstructionBuilder.getSupportedLanguages, DEBUGGER_REGISTRY] using hk
    rcases hk' with rfl | rfl | rfl | rfl | rfl | rfl | rfl
    · exact ⟨pythonSetupInfo, rfl, rfl⟩
    · exact ⟨nodeSetupInfo, rfl, rfl⟩
    · exact ⟨javaSetupInfo, rfl, rfl⟩
    · exact ⟨coreclrSetupInfo, rfl, rfl⟩
    · exact ⟨goSetupInfo, rfl, rfl⟩
    · exact ⟨cppdbgSetupInfo, rfl, rfl⟩
    · exact ⟨lldbSetupInfo, rfl, rfl⟩

/-- Witness for C7: a language outside the registry gets no record and no
instructions. -/
theorem registry_fixed_enumeration_witness :
    InstructionBuilder.getDebuggerInfo "ruby" = none ∧
    InstructionBuilder.getSetupInstructionsForLanguage "ruby" = none :=
  registry_fixed_enumeration.2.1 "ruby" (by decide)

/-- Claim C8 (counterexample): the logging facility is not an injected
per-component capability — `Logger.getInstance` hands every caller the
one shared instance stored in the static field, so re-acquiring the
capability returns the very same instance the first acquisition
produced. -/
theorem logging_not_injected : ¬ loggingCapabilityIsInjected := by
  intro h
  exact h loggerModuleInit (by decide)

/-- Claim C8 (amended): the logging facility is a lazily constructed
global singleton: after any first `getInstance` call the static state is
fixed and every further `getInstance` returns the same instance without
constructing another; the module-level `logger` export is that stored
instance.  Its lifecycle is tied to the host process (the static field),
not to any debug session. -/
theorem logging_global_singleton :
    (∀ s : LoggerModuleState,
      Logger.getInstance (Logger.getInstance s).1 =
        ((Logger.getInstance s).1, (Logger.getInstance s).2)) ∧
    loggerModuleExport.2 = (Logger.getInstance loggerModuleExport.1).2 := by
  constructor
  · intro s
    cases h : s.instanceId <;> simp [Logger.getInstance, h]
  · decide

/-- Claim C9: each of `debug`/`info`/`warn`/`error` writes its message to
the output channel exactly when the call's level is at least the
logger's current level; the initial level is INFO, so `debug()` writes
nothing until `setLogLevel(DEBUG)`; and the confirmation `setLogLevel`
emits at INFO level appears after setting DEBUG or INFO but is
suppressed after setting WARN or ERROR (the level is assigned before the
confirmation is logged). -/
theorem logger_level_threshold :
    (∀ (lvl : LogLevel) (msg : String) (st : LoggerState),
      (logMethod lvl msg none st).output =
        if st.logLevel.toNat ≤ lvl.toNat then st.output ++ [(lvl, msg)]
        else st.output) ∧
    loggerInit.logLevel = .info ∧
    (∀ (msg : String) (e : Option JsErrorValue),
      Logger.debug msg e loggerInit = loggerInit) ∧
    (∀ (st : LoggerState) (msg : String),
      (Logger.debug msg none (Logger.setLogLevel .debug st)).output =
        (Logger.setLogLevel .debug st).output ++ [(.debug, msg)]) ∧
    (∀ st : LoggerState,
      (Logger.setLogLevel .warn st).output = st.output ∧
      (Logger.setLogLevel .warn st).logLevel = .warn ∧
      (Logger.setLogLevel .error st).output = st.output ∧
      (Logger.setLogLevel .error st).logLevel = .error ∧
      (Logger.setLogLevel .debug st).output =
        st.output ++ [(.info, "Log level set to DEBUG")] ∧
      (Logger.setLogLevel .info st).output =
        st.output ++ [(.info, "Log level set to INFO")]) := by
  refine ⟨?_, rfl, ?_, ?_, ?_⟩
  · intro lvl msg st
    cases lvl <;>
      (simp only [logMethod, Logger.debug, Logger.info, Logger.warn, Logger.error,
        logWrite, shouldLog, decide_eq_true_eq]
       split <;> rfl)
  · intro msg e
    simp [Logger.debug, logWrite, shouldLog, loggerInit, LogLevel.toNat]
  · intro st msg
    simp [Logger.debug, Logger.setLogLevel, Logger.info, logWrite, shouldLog,
      LogLevel.toNat]
  · intro st
    refine ⟨?_, ?_, ?_, ?_, ?_, ?_⟩ <;>
      simp [Logger.setLogLevel, Logger.info, logWrite, shouldLog, LogLevel.toNat,
        logLevelName]

/-- Claim C10: `buildInstructions()` never propagates a file-read failure
and always produces a string: when the core instructions file cannot be
read the first section is the fixed fallback text; with no configuration
set, `validateConfiguration()` reports `hasConfig = false`, an empty
adapter list and the single global issue; and the language-specific tips
section appears in the output exactly when a configuration with at least
one adapter entry is present. -/
theorem instructions_resilient_and_gated :
    (∀ (cc : String → CommandCheckOutcome) (vr : String → VerifyOutcome)
        (b : InstructionBuilderState),
      (buildSections ⟨none, cc, vr⟩ b).head? =
        some "# DebugMCP - Debugging Instructions\n\nError loading core instructions.") ∧
    (∀ (env : InstructionEnv) (d w : String) (cp : Option String),
      validateConfiguration env ⟨d, w, none, cp⟩ =
        { hasConfig := false
          configPath :=
            match cp with
            | some p => p
            | none => pathJoin w "debugmcp.config.json"
          adapters := []
          globalIssues := ["No debugmcp.config.json found in the workspace"] }) ∧
    (∀ (env : InstructionEnv) (d w : String) (cp : Option String),
      buildSections env ⟨d, w, none, cp⟩ =
        [loadCoreInstructions env,
         buildConfigurationSection (validateConfiguration env ⟨d, w, none, cp⟩)]) ∧
    (∀ (env : InstructionEnv) (d w : String) (cp : Option String)
        (cfg : StandaloneConfig),
      buildSections env ⟨d, w, some cfg, cp⟩ =
        [loadCoreInstructions env,
         buildConfigurationSection (validateConfiguration env ⟨d, w, some cfg, cp⟩)] ++
          (if cfg.adapters.length > 0 then
            [buildLanguageSpecificSection
              (cfg.adapters.map (fun e => validateAdapter env e.1 e.2))]
          else [])) := by
  refine ⟨?_, ?_, ?_, ?_⟩
  · intro cc vr b
    unfold buildSections
    simp [loadCoreInstructions]
  · intro env d w cp
    rfl
  · intro env d w cp
    unfold buildSections
    simp [validateConfiguration]
  · intro env d w cp cfg
    unfold buildSections
    by_cases h : cfg.adapters.length > 0 <;>
      simp [validateConfiguration, h]
